import Mathlib

/-!
Shallow embedding of `src/server.js` (a backend relay validating and
sanitizing chat requests before forwarding them to an upstream LLM API).

JavaScript strings are modelled as `List Char`; JavaScript primitive values
that can appear in a request-body field are modelled by `JSPrim`, with
`jUndefined` standing both for `undefined` and for an absent field (JS reads an
absent object property as `undefined`).  Machine-level details that the
claims do not touch (UTF-16 code units vs characters, the exact JS
whitespace class) are modelled by Lean characters and `Char.isWhitespace`.
-/

namespace Server

/-- A JavaScript primitive value as it can appear in a body field.
`jUndefined` also models an absent property. -/
inductive JSPrim where
  | jUndefined
  | jNull
  | jBool (b : Bool)
  | jNum (n : Int)
  | jStr (s : List Char)
deriving DecidableEq, Repr

/-- JavaScript truthiness of a primitive value (`NaN` is not modelled;
numbers are `Int`). -/
def JSPrim.truthy : JSPrim → Bool
  | .jUndefined => false
  | .jNull => false
  | .jBool b => b
  | .jNum n => n ≠ 0
  | .jStr s => s ≠ []

/-- A message object from the request body: `role` and `content` are
arbitrary primitive values (absent field = `jUndefined`). -/
structure JSMsg where
  role : JSPrim
  content : JSPrim
deriving DecidableEq, Repr

/-- The raw value of the `messages` body field: either an array of message
objects or a non-array primitive. -/
inductive MessagesVal where
  | arr (l : List JSMsg)
  | prim (p : JSPrim)
deriving DecidableEq, Repr

/-- JavaScript truthiness of the `messages` value: arrays are always
truthy. -/
def MessagesVal.truthy : MessagesVal → Bool
  | .arr _ => true
  | .prim p => p.truthy

/-- The underlying list of an array value (only consulted after
`validateMessages` has ruled out the non-array case). -/
def MessagesVal.asList : MessagesVal → List JSMsg
  | .arr l => l
  | .prim _ => []

/-- `length` as read by `logMetrics` via `req.body.messages?.length || 0`:
array length, string length for strings, `0` otherwise. -/
def metricsCount : MessagesVal → Nat
  | .arr l => l.length
  | .prim (.jStr s) => s.length
  | .prim _ => 0

/-- `text.trim()`: drop whitespace from both ends
(`dropWhile` from the front, then from the back via `reverse`). -/
def jsTrim (s : List Char) : List Char :=
  (((s.dropWhile Char.isWhitespace).reverse.dropWhile Char.isWhitespace)).reverse

/-- The string branch of `sanitizeInput`: `text.trim().slice(0, 4000)`. -/
def sanitizeStr (s : List Char) : List Char :=
  (jsTrim s).take 4000

/-- `sanitizeInput(text)` from server.js: non-strings map to the empty
string, strings are trimmed and truncated to 4000 characters. -/
def sanitizeInput : JSPrim → List Char
  | .jStr s => sanitizeStr s
  | _ => []

/-- The validation failures of `validateMessages`, named as in the spec's
taxonomy (§7); the code identifies them by their thrown message strings. -/
inductive ValidationError where
  | InvalidFormat
  | EmptyConversation
  | TooManyMessages
  | MalformedMessage
  | InvalidRole
deriving DecidableEq, Repr

/-- The exact strings thrown by `validateMessages` for each failure. -/
def errText : ValidationError → List Char
  | .InvalidFormat => "Messages deve essere un array".data
  | .EmptyConversation => "Messages non può essere vuoto".data
  | .TooManyMessages => "Troppe messaggi nella conversazione".data
  | .MalformedMessage => "Formato messaggio non valido".data
  | .InvalidRole => "Role non valido".data

/-- `['user', 'assistant'].includes(msg.role)`: strict equality against the
two string literals (a non-string role is never included). -/
def validRole (r : JSPrim) : Bool :=
  r = .jStr "user".data || r = .jStr "assistant".data

/-- The `for (const msg of messages)` loop of `validateMessages`: each
message needs a truthy `role` and truthy `content` (else
`MalformedMessage`), then a role among the two literals (else
`InvalidRole`); the loop stops at the first offending message. -/
def validateEach : List JSMsg → Option ValidationError
  | [] => none
  | m :: rest =>
    if !m.role.truthy || !m.content.truthy then some .MalformedMessage
    else if !validRole m.role then some .InvalidRole
    else validateEach rest

/-- `validateMessages(messages)` from server.js: `none` models the
`return true` (acceptance), `some e` models the thrown error `e`. -/
def validateMessages : MessagesVal → Option ValidationError
  | .prim _ => some .InvalidFormat
  | .arr l =>
    if l.length = 0 then some .EmptyConversation
    else if 50 < l.length then some .TooManyMessages
    else validateEach l

/-- Whether a list of characters starts with the given pattern. -/
def startsWithChars : List Char → List Char → Bool
  | [], _ => true
  | _ :: _, [] => false
  | p :: ps, c :: cs => p = c && startsWithChars ps cs

/-- `String.prototype.includes`: whether `pat` occurs as a contiguous
substring of `s`. -/
def containsSub (pat : List Char) : List Char → Bool
  | [] => startsWithChars pat []
  | c :: cs => startsWithChars pat (c :: cs) || containsSub pat cs

/-- The process-wide `CONFIG` object (environment values become opaque
fields) plus the `NODE_ENV === 'development'` posture read in the catch
block. -/
structure Config where
  ANTHROPIC_API_KEY : List Char
  ANTHROPIC_API_URL : List Char
  MODEL : List Char
  MAX_TOKENS : Int
  devMode : Bool
deriving DecidableEq, Repr

/-- A sanitized message as built by `messages.map(...)`: the role is kept
as-is, the content is passed through `sanitizeInput`. -/
structure SanMsg where
  role : JSPrim
  content : List Char
deriving DecidableEq, Repr

/-- The `requestBody` sent to the upstream API: `model`, `max_tokens` and
`messages` always, `system` only when added by the `if (systemPrompt)`
branch. -/
structure UpstreamRequest where
  model : List Char
  max_tokens : Int
  messages : List SanMsg
  system : Option (List Char)
deriving DecidableEq, Repr

/-- `requestBody` construction in the handler, including the
`if (systemPrompt) requestBody.system = sanitizeInput(systemPrompt)`
step. -/
def mkRequestBody (cfg : Config) (msgs : List SanMsg) (systemPrompt : JSPrim) :
    UpstreamRequest :=
  { model := cfg.MODEL
    max_tokens := cfg.MAX_TOKENS
    messages := msgs
    system := if systemPrompt.truthy then some (sanitizeInput systemPrompt) else none }

/-- The `messages.map(...)` step building the sanitized messages: roles are
kept as-is, contents are passed through `sanitizeInput`. -/
def sanitizedOf (v : MessagesVal) : List SanMsg :=
  v.asList.map fun m => SanMsg.mk m.role (sanitizeInput m.content)

/-- The possible behaviours of the mocked upstream `fetch` + body parsing:
a 2xx response with a well-formed body (first content block text, usage,
model), a 2xx response whose body makes `data.content[0].text` throw with
the given message, a non-2xx response with its JSON-stringified error body,
or a transport/JSON failure throwing with the given message. -/
inductive UpstreamOutcome where
  | success (text usage model : List Char)
  | successBad (emsg : List Char)
  | httpError (status : Nat) (bodyJson : List Char)
  | throwErr (emsg : List Char)
deriving DecidableEq, Repr

/-- The message of the error thrown on `!response.ok`:
`API Error: <status> - <JSON.stringify(errorData)>`. -/
def apiErrorMsg (status : Nat) (bodyJson : List Char) : List Char :=
  "API Error: ".data ++ (Nat.repr status).data ++ " - ".data ++ bodyJson

/-- One `logMetrics` record; the timestamp, client IP and elapsed time are
ambient real-time data and are not modelled, the `success` flag and
`messagesCount` are. -/
structure MetricsRecord where
  success : Bool
  messagesCount : Nat
deriving DecidableEq, Repr

/-- The observable outcome of one `POST /api/chat` request: HTTP status,
the `error`/`details`/success-body fields of the JSON response, the
upstream request issued (if the handler got that far), and the list of
`logMetrics` records emitted. -/
structure HandlerResult where
  status : Nat
  error : Option (List Char)
  details : Option (List Char)
  message : Option (List Char)
  usage : Option (List Char)
  modelUsed : Option (List Char)
  upReq : Option UpstreamRequest
  logs : List MetricsRecord
deriving DecidableEq, Repr

/-- Fixed literal: the 400 error for a falsy `messages` field. -/
def errMissingMessages : List Char := "Parametro messages mancante".data

/-- Fixed literal: the 500 error when the catch block sees `API Error: 401`. -/
def errAuth : List Char := "Errore di autenticazione con il servizio AI".data

/-- Fixed literal: the 429 error when the catch block sees `API Error: 429`. -/
def errUpstreamRate : List Char := "Troppi richieste al servizio AI. Riprova tra poco.".data

/-- Fixed literal: the generic 500 error of the final catch branch. -/
def errServer : List Char := "Errore del server. Riprova tra poco.".data

/-- Pattern matched first by the catch block. -/
def pat401 : List Char := "API Error: 401".data

/-- Pattern matched second by the catch block. -/
def pat429 : List Char := "API Error: 429".data

/-- The catch block of the handler: logs one failure record, then
classifies the thrown message by substring matching (`401` check first,
then `429`, then the generic 500 with `details` only in development). -/
def catchResult (cfg : Config) (mc : Nat) (ur : Option UpstreamRequest)
    (emsg : List Char) : HandlerResult :=
  if containsSub pat401 emsg then
    { status := 500, error := some errAuth, details := none, message := none,
      usage := none, modelUsed := none, upReq := ur, logs := [⟨false, mc⟩] }
  else if containsSub pat429 emsg then
    { status := 429, error := some errUpstreamRate, details := none, message := none,
      usage := none, modelUsed := none, upReq := ur, logs := [⟨false, mc⟩] }
  else
    { status := 500, error := some errServer,
      details := if cfg.devMode then some emsg else none, message := none,
      usage := none, modelUsed := none, upReq := ur, logs := [⟨false, mc⟩] }

/-- The `POST /api/chat` handler from server.js, as a function of the
configuration, the request body, and the mocked upstream outcome:

* a falsy `messages` field returns 400 immediately (no metrics record);
* a validation failure is thrown and lands in the catch block;
* otherwise the messages are sanitized, the upstream request is built and
  issued, and the outcome is either the 200 response (logged as success),
  a mid-response failure after the success log (`successBad`), or a thrown
  error classified by the catch block. -/
def handleChat (cfg : Config) (messages : MessagesVal) (systemPrompt : JSPrim)
    (up : UpstreamOutcome) : HandlerResult :=
  if messages.truthy = false then
    { status := 400, error := some errMissingMessages, details := none,
      message := none, usage := none, modelUsed := none, upReq := none, logs := [] }
  else
    match validateMessages messages with
    | some e => catchResult cfg (metricsCount messages) none (errText e)
    | none =>
      match up with
      | .success text usage model =>
        { status := 200, error := none, details := none, message := some text,
          usage := some usage, modelUsed := some model,
          upReq := some (mkRequestBody cfg (sanitizedOf messages) systemPrompt),
          logs := [⟨true, metricsCount messages⟩] }
      | .successBad emsg =>
        let r := catchResult cfg (metricsCount messages)
          (some (mkRequestBody cfg (sanitizedOf messages) systemPrompt)) emsg
        { r with logs := ⟨true, metricsCount messages⟩ :: r.logs }
      | .httpError st bodyJson =>
        catchResult cfg (metricsCount messages)
          (some (mkRequestBody cfg (sanitizedOf messages) systemPrompt))
          (apiErrorMsg st bodyJson)
      | .throwErr emsg =>
        catchResult cfg (metricsCount messages)
          (some (mkRequestBody cfg (sanitizedOf messages) systemPrompt)) emsg

/-- Whether a list of characters has no whitespace in front. -/
def noLeadWS : List Char → Bool
  | [] => true
  | c :: _ => !c.isWhitespace

/-- Whether a list of characters has no whitespace at the end. -/
def noTrailWS (l : List Char) : Bool :=
  match l.getLast? with
  | none => true
  | some c => !c.isWhitespace

/-- Whether the upstream outcome is a 2xx with a body on which building the
success response throws. -/
def UpstreamOutcome.isBadSuccess : UpstreamOutcome → Bool
  | .successBad _ => true
  | _ => false

/-- A conversation on which every validator check passes. -/
def goodMsg : JSMsg := ⟨.jStr "user".data, .jStr "Ciao".data⟩

/-- A concrete configuration used in witnesses and counterexamples. -/
def cfg0 : Config := ⟨"key".data, "url".data, "claude".data, 1024, false⟩

/-- The 4002-character string exhibiting truncation-after-trim: one letter,
4000 spaces, one letter. -/
def spike : List Char := 'a' :: (List.replicate 4000 ' ' ++ ['b'])

section TrimLemmas

/-- If `dropWhile` returns a cons, its head fails the predicate. -/
theorem dropWhile_head_false {p : Char → Bool} :
    ∀ {l : List Char} {c : Char} {cs : List Char},
      List.dropWhile p l = c :: cs → p c = false := by
  intro l
  induction l with
  | nil => intro c cs h; simp at h
  | cons a as ih =>
    intro c cs h
    rw [List.dropWhile_cons] at h
    by_cases hp : p a
    · rw [if_pos hp] at h
      exact ih h
    · rw [if_neg hp] at h
      cases h
      exact Bool.of_not_eq_true hp

/-- A list whose head fails the predicate is untouched by `dropWhile`. -/
theorem dropWhile_of_head_false {p : Char → Bool} {l : List Char}
    (h : ∀ c cs, l = c :: cs → p c = false) : List.dropWhile p l = l := by
  cases l with
  | nil => rfl
  | cons c cs =>
    rw [List.dropWhile_cons, if_neg]
    simp [h c cs rfl]

/-- `dropWhile` is idempotent. -/
theorem dropWhile_dropWhile (p : Char → Bool) (l : List Char) :
    List.dropWhile p (List.dropWhile p l) = List.dropWhile p l := by
  apply dropWhile_of_head_false
  intro c cs h
  exact dropWhile_head_false h

/-- The right-trim step `(dropWhile p l.reverse).reverse` is a prefix of the
original list. -/
theorem trimRight_isPre (p : Char → Bool) (l : List Char) :
    (List.dropWhile p l.reverse).reverse <+: l := by
  have hsuf : List.dropWhile p l.reverse <:+ l.reverse := List.dropWhile_suffix p
  have hrev := List.reverse_prefix.mpr hsuf
  simpa using hrev

/-- The head of `jsTrim s` is never whitespace. -/
theorem jsTrim_head_false {s : List Char} {c : Char} {cs : List Char}
    (h : jsTrim s = c :: cs) : c.isWhitespace = false := by
  have hpre : jsTrim s <+: s.dropWhile Char.isWhitespace :=
    trimRight_isPre Char.isWhitespace (s.dropWhile Char.isWhitespace)
  rw [h] at hpre
  obtain ⟨t, ht⟩ := hpre
  exact dropWhile_head_false ht.symm

/-- `noLeadWS` is preserved by `take`. -/
theorem noLeadWS_take {l : List Char} (n : Nat) (h : noLeadWS l = true) :
    noLeadWS (l.take n) = true := by
  cases n with
  | zero => rfl
  | succ m =>
    cases l with
    | nil => rfl
    | cons c cs => simpa [noLeadWS] using h

/-- The trimmed list never ends in whitespace. -/
theorem jsTrim_noTrail (s : List Char) : noTrailWS (jsTrim s) = true := by
  unfold noTrailWS jsTrim
  rw [List.getLast?_eq_head?_reverse, List.reverse_reverse]
  cases hd : List.dropWhile Char.isWhitespace
      (s.dropWhile Char.isWhitespace).reverse with
  | nil => rfl
  | cons c cs => simp [dropWhile_head_false hd]

/-- The trimmed list never starts with whitespace. -/
theorem jsTrim_noLead (s : List Char) : noLeadWS (jsTrim s) = true := by
  cases h : jsTrim s with
  | nil => rfl
  | cons c cs => simp [noLeadWS, jsTrim_head_false h]

/-- `jsTrim` is idempotent. -/
theorem jsTrim_jsTrim (s : List Char) : jsTrim (jsTrim s) = jsTrim s := by
  unfold jsTrim
  set t := s.dropWhile Char.isWhitespace with ht
  set u := (t.reverse.dropWhile Char.isWhitespace).reverse with hu
  have hu_dw : u.dropWhile Char.isWhitespace = u := by
    apply dropWhile_of_head_false
    intro c cs h
    have hpre : u <+: t := trimRight_isPre Char.isWhitespace t
    rw [h] at hpre
    obtain ⟨r, hr⟩ := hpre
    have hthead : t = c :: (cs ++ r) := hr.symm
    have htt : t.dropWhile Char.isWhitespace = t := by
      rw [ht]; exact dropWhile_dropWhile _ s
    rw [hthead] at htt
    exact dropWhile_head_false htt
  rw [hu_dw, hu, List.reverse_reverse, dropWhile_dropWhile]

end TrimLemmas

/-- C3 (amended): sanitized strings are at most 4000 characters and never
start with whitespace; they are also guaranteed not to end with whitespace
provided the trimmed input fits within the 4000-character bound (otherwise
truncation can expose trailing whitespace). -/
theorem sanitizeStr_bounds (s : List Char) :
    (sanitizeStr s).length ≤ 4000 ∧
    noLeadWS (sanitizeStr s) = true ∧
    ((jsTrim s).length ≤ 4000 → noTrailWS (sanitizeStr s) = true) := by
  refine ⟨?_, ?_, ?_⟩
  · unfold sanitizeStr
    rw [List.length_take]
    exact Nat.min_le_left _ _
  · exact noLeadWS_take 4000 (jsTrim_noLead s)
  · intro h
    unfold sanitizeStr
    rw [List.take_of_length_le h]
    exact jsTrim_noTrail s

set_option maxRecDepth 100000 in
/-- C3 (counterexample): the sanitized form of the 4002-character string
`spike` ends in a space, so "no trailing whitespace" fails for some string
inputs. -/
theorem sanitizeStr_trailing_ws_cex :
    noTrailWS (sanitizeStr spike) = false := by decide

/-- C3 (witness): the bounds theorem instantiated at a concrete short
string, all hypotheses discharged. -/
theorem sanitizeStr_bounds_witness :
    (sanitizeStr "  ciao  ".data).length ≤ 4000 ∧
    noLeadWS (sanitizeStr "  ciao  ".data) = true ∧
    noTrailWS (sanitizeStr "  ciao  ".data) = true := by
  obtain ⟨h1, h2, h3⟩ := sanitizeStr_bounds "  ciao  ".data
  exact ⟨h1, h2, h3 (by decide)⟩

/-- C4 (amended): the sanitizer is idempotent on every string whose trimmed
form fits within the 4000-character bound (in particular on every string it
does not truncate). -/
theorem sanitizeStr_idem (s : List Char) (h : (jsTrim s).length ≤ 4000) :
    sanitizeStr (sanitizeStr s) = sanitizeStr s := by
  unfold sanitizeStr
  rw [List.take_of_length_le h, jsTrim_jsTrim, List.take_of_length_le h]

set_option maxRecDepth 100000 in
/-- C4 (counterexample): on the 4002-character string `spike`, truncation
exposes trailing whitespace, and a second sanitization pass removes it, so
the sanitizer is not idempotent on every input. -/
theorem sanitizeStr_not_idem_cex :
    sanitizeStr (sanitizeStr spike) ≠ sanitizeStr spike := by decide

/-- C4 (witness): idempotence instantiated at a concrete string, the length
hypothesis discharged. -/
theorem sanitizeStr_idem_witness :
    sanitizeStr (sanitizeStr "  ciao  ".data) = sanitizeStr "  ciao  ".data :=
  sanitizeStr_idem "  ciao  ".data (by decide)

section ValidatorLemmas

/-- A role accepted by the membership check is in particular truthy. -/
theorem validRole_truthy {r : JSPrim} (h : validRole r = true) :
    r.truthy = true := by
  unfold validRole at h
  rw [Bool.or_eq_true, decide_eq_true_eq, decide_eq_true_eq] at h
  rcases h with h | h <;> subst h <;> decide

/-- The per-message loop accepts a list when every message has an accepted
role and truthy content. -/
theorem validateEach_none_of_all :
    ∀ l : List JSMsg,
      (∀ m ∈ l, validRole m.role = true ∧ m.content.truthy = true) →
      validateEach l = none := by
  intro l
  induction l with
  | nil => intro _; rfl
  | cons m rest ih =>
    intro h
    obtain ⟨hr, hc⟩ := h m (List.mem_cons_self m rest)
    unfold validateEach
    rw [if_neg (by simp [validRole_truthy hr, hc]), if_neg (by simp [hr])]
    exact ih fun x hx => h x (List.mem_cons_of_mem m hx)

/-- If the per-message loop accepts a list, every member's content is
truthy. -/
theorem validateEach_none_content :
    ∀ l : List JSMsg, validateEach l = none →
      ∀ m ∈ l, m.content.truthy = true := by
  intro l
  induction l with
  | nil => intro _ m hm; simp at hm
  | cons a rest ih =>
    intro h m hm
    unfold validateEach at h
    by_cases h1 : (!a.role.truthy || !a.content.truthy) = true
    · rw [if_pos h1] at h; simp at h
    · rw [if_neg h1] at h
      by_cases h2 : (!validRole a.role) = true
      · rw [if_pos h2] at h; simp at h
      · rw [if_neg h2] at h
        simp only [Bool.or_eq_true, Bool.not_eq_true'] at h1
        push_neg at h1
        rcases List.mem_cons.mp hm with rfl | hm'
        · have := h1.2
          simpa using this
        · exact ih h m hm'

/-- The per-message loop never reports `TooManyMessages`. -/
theorem validateEach_ne_tooMany :
    ∀ l : List JSMsg, validateEach l ≠ some .TooManyMessages := by
  intro l
  induction l with
  | nil => simp [validateEach]
  | cons a rest ih =>
    unfold validateEach
    split
    · simp
    · split
      · simp
      · exact ih

/-- Reduction of `validateMessages` on an array value. -/
theorem validateMessages_arr (l : List JSMsg) :
    validateMessages (.arr l) =
      (if l.length = 0 then some .EmptyConversation
       else if 50 < l.length then some .TooManyMessages
       else validateEach l) := rfl

end ValidatorLemmas

/-- C9: the validator reports `TooManyMessages` exactly on conversations
longer than 50 — every 50-message conversation whose messages all carry an
accepted role and truthy content is accepted, every conversation longer
than 50 is rejected with `TooManyMessages`, and `TooManyMessages` is never
reported for a conversation of 50 or fewer messages. -/
theorem validateMessages_tooMany_iff :
    (∀ msgs : List JSMsg, msgs.length = 50 →
        (∀ m ∈ msgs, validRole m.role = true ∧ m.content.truthy = true) →
        validateMessages (.arr msgs) = none) ∧
    (∀ msgs : List JSMsg, 50 < msgs.length →
        validateMessages (.arr msgs) = some .TooManyMessages) ∧
    (∀ v : MessagesVal, validateMessages v = some .TooManyMessages →
        50 < v.asList.length) := by
  refine ⟨?_, ?_, ?_⟩
  · intro msgs hlen hall
    rw [validateMessages_arr]
    rw [if_neg (by omega), if_neg (by omega)]
    exact validateEach_none_of_all msgs hall
  · intro msgs hlen
    rw [validateMessages_arr]
    rw [if_neg (by omega), if_pos hlen]
  · intro v hv
    cases v with
    | prim p => simp [validateMessages] at hv
    | arr l =>
      rw [validateMessages_arr] at hv
      by_cases h0 : l.length = 0
      · rw [if_pos h0] at hv; exact absurd hv (by decide)
      · rw [if_neg h0] at hv
        by_cases h50 : 50 < l.length
        · exact h50
        · rw [if_neg h50] at hv
          exact absurd hv (validateEach_ne_tooMany l)

set_option maxRecDepth 8000 in
/-- C9 (witness): 50 copies of a valid message are accepted, 51 copies are
rejected with `TooManyMessages`. -/
theorem validateMessages_tooMany_iff_witness :
    validateMessages (.arr (List.replicate 50 goodMsg)) = none ∧
    validateMessages (.arr (List.replicate 51 goodMsg)) =
      some .TooManyMessages :=
  ⟨validateMessages_tooMany_iff.1 _ (by decide) (by decide),
   validateMessages_tooMany_iff.2.1 _ (by decide)⟩

/-- C5 (amended): a message whose `content` is the empty string is never
admissible — the truthiness test `!msg.content` rejects it, so any
conversation containing such a message fails validation. -/
theorem validateMessages_empty_content (msgs : List JSMsg) (m : JSMsg)
    (hm : m ∈ msgs) (hc : m.content = .jStr []) :
    validateMessages (.arr msgs) ≠ none := by
  intro h
  rw [validateMessages_arr] at h
  by_cases h0 : msgs.length = 0
  · rw [if_pos h0] at h; simp at h
  · rw [if_neg h0] at h
    by_cases h50 : 50 < msgs.length
    · rw [if_pos h50] at h; simp at h
    · rw [if_neg h50] at h
      have := validateEach_none_content msgs h m hm
      rw [hc] at this
      simp [JSPrim.truthy] at this

/-- C5 (counterexample): a single message with role `user` and
present-but-empty content is rejected with `MalformedMessage`, not
accepted. -/
theorem emptyContent_rejected_cex :
    validateMessages (.arr [⟨.jStr "user".data, .jStr []⟩]) =
      some .MalformedMessage := by decide

/-- C5 (witness): the amended theorem instantiated at that concrete
one-message conversation. -/
theorem validateMessages_empty_content_witness :
    validateMessages (.arr [⟨.jStr "user".data, .jStr []⟩]) ≠ none :=
  validateMessages_empty_content _ ⟨.jStr "user".data, .jStr []⟩
    (List.mem_singleton.mpr rfl) rfl

section HandlerLemmas

/-- An accepted `messages` value is an array, hence truthy. -/
theorem validateMessages_none_truthy (m : MessagesVal)
    (h : validateMessages m = none) : m.truthy = true := by
  cases m with
  | prim p => simp [validateMessages] at h
  | arr l => rfl

/-- The catch block's `upReq` is whatever was passed in, whichever
classification branch fires. -/
theorem catchResult_upReq (cfg : Config) (mc : Nat)
    (ur : Option UpstreamRequest) (emsg : List Char) :
    (catchResult cfg mc ur emsg).upReq = ur := by
  unfold catchResult
  split
  · rfl
  · split <;> rfl

/-- The catch block always logs exactly one failure record. -/
theorem catchResult_logs (cfg : Config) (mc : Nat)
    (ur : Option UpstreamRequest) (emsg : List Char) :
    (catchResult cfg mc ur emsg).logs = [⟨false, mc⟩] := by
  unfold catchResult
  split
  · rfl
  · split <;> rfl

/-- The catch block on a message matching neither `API Error: 401` nor
`API Error: 429` produces the generic 500 response. -/
theorem catchResult_generic (cfg : Config) (mc : Nat)
    (ur : Option UpstreamRequest) (emsg : List Char)
    (h1 : containsSub pat401 emsg = false)
    (h2 : containsSub pat429 emsg = false) :
    catchResult cfg mc ur emsg =
      { status := 500, error := some errServer,
        details := if cfg.devMode then some emsg else none, message := none,
        usage := none, modelUsed := none, upReq := ur, logs := [⟨false, mc⟩] } := by
  unfold catchResult
  rw [if_neg (by simp [h1]), if_neg (by simp [h2])]

/-- The catch block on a message matching `API Error: 429` but not
`API Error: 401` produces the 429 retry-later response. -/
theorem catchResult_429 (cfg : Config) (mc : Nat)
    (ur : Option UpstreamRequest) (emsg : List Char)
    (h1 : containsSub pat401 emsg = false)
    (h2 : containsSub pat429 emsg = true) :
    catchResult cfg mc ur emsg =
      { status := 429, error := some errUpstreamRate, details := none,
        message := none, usage := none, modelUsed := none, upReq := ur,
        logs := [⟨false, mc⟩] } := by
  unfold catchResult
  rw [if_neg (by simp [h1]), if_pos h2]

/-- A pattern that starts a list still starts any extension of it. -/
theorem startsWithChars_append {p : List Char} (t : List Char) :
    ∀ {l : List Char}, startsWithChars p l = true →
      startsWithChars p (l ++ t) = true := by
  induction p with
  | nil => intro l _; rfl
  | cons c cs ih =>
    intro l h
    cases l with
    | nil => simp [startsWithChars] at h
    | cons d ds =>
      rw [List.cons_append]
      unfold startsWithChars at h ⊢
      rw [Bool.and_eq_true] at h ⊢
      exact ⟨h.1, ih h.2⟩

/-- A pattern that starts a list occurs in it. -/
theorem containsSub_of_startsWith {p l : List Char}
    (h : startsWithChars p l = true) : containsSub p l = true := by
  cases l with
  | nil => exact h
  | cons c cs =>
    unfold containsSub
    rw [Bool.or_eq_true]
    exact Or.inl h

/-- The error message composed for an upstream 429 always contains the
`API Error: 429` pattern, whatever the stringified body. -/
theorem apiErrorMsg_429_contains (b : List Char) :
    containsSub pat429 (apiErrorMsg 429 b) = true := by
  have hmsg : apiErrorMsg 429 b =
      ("API Error: ".data ++ (Nat.repr 429).data ++ " - ".data) ++ b := by
    unfold apiErrorMsg
    simp [List.append_assoc]
  rw [hmsg]
  exact containsSub_of_startsWith (startsWithChars_append b (by decide))

/-- No message thrown by the validator contains either catch-block
pattern. -/
theorem errText_no_api (e : ValidationError) :
    containsSub pat401 (errText e) = false ∧
    containsSub pat429 (errText e) = false := by
  cases e <;> exact ⟨by decide, by decide⟩

/-- Reduction of the handler on a falsy `messages` value. -/
theorem handleChat_falsy (cfg : Config) (m : MessagesVal) (sp : JSPrim)
    (up : UpstreamOutcome) (h : m.truthy = false) :
    handleChat cfg m sp up =
      { status := 400, error := some errMissingMessages, details := none,
        message := none, usage := none, modelUsed := none, upReq := none,
        logs := [] } := by
  unfold handleChat
  rw [if_pos h]

/-- Reduction of the handler on a truthy `messages` value that fails
validation: the thrown message reaches the catch block, with no upstream
request made. -/
theorem handleChat_invalid (cfg : Config) (m : MessagesVal) (sp : JSPrim)
    (up : UpstreamOutcome) (e : ValidationError)
    (ht : m.truthy = true) (hv : validateMessages m = some e) :
    handleChat cfg m sp up =
      catchResult cfg (metricsCount m) none (errText e) := by
  unfold handleChat
  rw [if_neg (by simp [ht]), hv]

/-- Reduction of the handler on an accepted conversation and a well-formed
2xx upstream response. -/
theorem handleChat_valid_success (cfg : Config) (m : MessagesVal)
    (sp : JSPrim) (text usage model : List Char)
    (hv : validateMessages m = none) :
    handleChat cfg m sp (.success text usage model) =
      { status := 200, error := none, details := none, message := some text,
        usage := some usage, modelUsed := some model,
        upReq := some (mkRequestBody cfg (sanitizedOf m) sp),
        logs := [⟨true, metricsCount m⟩] } := by
  have ht := validateMessages_none_truthy m hv
  unfold handleChat
  rw [if_neg (by simp [ht]), hv]

/-- Reduction of the handler on an accepted conversation and a 2xx upstream
response whose body makes the success path throw: a success record is
logged, then the catch block runs (logging again). -/
theorem handleChat_valid_successBad (cfg : Config) (m : MessagesVal)
    (sp : JSPrim) (emsg : List Char) (hv : validateMessages m = none) :
    handleChat cfg m sp (.successBad emsg) =
      { catchResult cfg (metricsCount m)
          (some (mkRequestBody cfg (sanitizedOf m) sp)) emsg with
        logs := ⟨true, metricsCount m⟩ ::
          (catchResult cfg (metricsCount m)
            (some (mkRequestBody cfg (sanitizedOf m) sp)) emsg).logs } := by
  have ht := validateMessages_none_truthy m hv
  unfold handleChat
  rw [if_neg (by simp [ht]), hv]

/-- Reduction of the handler on an accepted conversation and a non-2xx
upstream response: the composed `API Error` message reaches the catch
block. -/
theorem handleChat_valid_httpError (cfg : Config) (m : MessagesVal)
    (sp : JSPrim) (st : Nat) (bodyJson : List Char)
    (hv : validateMessages m = none) :
    handleChat cfg m sp (.httpError st bodyJson) =
      catchResult cfg (metricsCount m)
        (some (mkRequestBody cfg (sanitizedOf m) sp))
        (apiErrorMsg st bodyJson) := by
  have ht := validateMessages_none_truthy m hv
  unfold handleChat
  rw [if_neg (by simp [ht]), hv]

/-- Reduction of the handler on an accepted conversation and a transport or
JSON failure: the thrown message reaches the catch block. -/
theorem handleChat_valid_throwErr (cfg : Config) (m : MessagesVal)
    (sp : JSPrim) (emsg : List Char) (hv : validateMessages m = none) :
    handleChat cfg m sp (.throwErr emsg) =
      catchResult cfg (metricsCount m)
        (some (mkRequestBody cfg (sanitizedOf m) sp)) emsg := by
  have ht := validateMessages_none_truthy m hv
  unfold handleChat
  rw [if_neg (by simp [ht]), hv]

/-- Whenever the handler issues an upstream request at all, it is precisely
the one built by `mkRequestBody` from the sanitized messages and the system
prompt. -/
theorem handleChat_upReq (cfg : Config) (m : MessagesVal) (sp : JSPrim)
    (up : UpstreamOutcome) (r : UpstreamRequest)
    (h : (handleChat cfg m sp up).upReq = some r) :
    r = mkRequestBody cfg (sanitizedOf m) sp := by
  by_cases ht : m.truthy = false
  · rw [handleChat_falsy cfg m sp up ht] at h
    simp at h
  · have ht' : m.truthy = true := by simpa using ht
    cases hv : validateMessages m with
    | some e =>
      rw [handleChat_invalid cfg m sp up e ht' hv, catchResult_upReq] at h
      simp at h
    | none =>
      cases up with
      | success t u mo =>
        rw [handleChat_valid_success cfg m sp t u mo hv] at h
        simpa using h.symm
      | successBad emsg =>
        rw [handleChat_valid_successBad cfg m sp emsg hv] at h
        have h2 : (catchResult cfg (metricsCount m)
            (some (mkRequestBody cfg (sanitizedOf m) sp)) emsg).upReq = some r := h
        rw [catchResult_upReq] at h2
        simpa using h2.symm
      | httpError st bj =>
        rw [handleChat_valid_httpError cfg m sp st bj hv, catchResult_upReq] at h
        simpa using h.symm
      | throwErr emsg =>
        rw [handleChat_valid_throwErr cfg m sp emsg hv, catchResult_upReq] at h
        simpa using h.symm

end HandlerLemmas

/-- C1 (amended): a present-but-invalid `messages` field does not produce a
400: the thrown validation error matches neither catch-block pattern, so
the endpoint answers 500 with the generic server-error string, the specific
validator message surfacing only in `details` under the development
posture. -/
theorem validation_failure_500 (cfg : Config) (m : MessagesVal) (sp : JSPrim)
    (up : UpstreamOutcome) (e : ValidationError)
    (ht : m.truthy = true) (hv : validateMessages m = some e) :
    (handleChat cfg m sp up).status = 500 ∧
    (handleChat cfg m sp up).error = some errServer ∧
    (handleChat cfg m sp up).details =
      (if cfg.devMode then some (errText e) else none) := by
  rw [handleChat_invalid cfg m sp up e ht hv,
    catchResult_generic cfg _ none (errText e) (errText_no_api e).1
      (errText_no_api e).2]
  exact ⟨rfl, rfl, rfl⟩

/-- C1 (counterexample): for the empty conversation `[]` the endpoint
answers 500, not 400 as claimed. -/
theorem emptyConversation_500_cex :
    (handleChat cfg0 (.arr []) .jUndefined (.throwErr [])).status = 500 ∧
    (handleChat cfg0 (.arr []) .jUndefined (.throwErr [])).status ≠ 400 :=
  ⟨by decide, by decide⟩

/-- C1 (witness): the amended theorem instantiated at the empty
conversation under the concrete configuration. -/
theorem validation_failure_500_witness :
    (handleChat cfg0 (.arr []) .jUndefined (.success "ok".data "u".data "m".data)).status = 500 ∧
    (handleChat cfg0 (.arr []) .jUndefined (.success "ok".data "u".data "m".data)).error = some errServer ∧
    (handleChat cfg0 (.arr []) .jUndefined (.success "ok".data "u".data "m".data)).details =
      (if cfg0.devMode then some (errText .EmptyConversation) else none) :=
  validation_failure_500 cfg0 (.arr []) .jUndefined
    (.success "ok".data "u".data "m".data) .EmptyConversation
    (by decide) (by decide)

/-- C2 (amended): the number of metrics records is 1 on every terminal path
except two: a falsy/absent `messages` field returns 400 with no record at
all, and a 2xx upstream body on which the success response throws logs
twice (a success record, then the catch block's failure record); every
record carries the message count computed from the raw `messages` value
(array length, string length for strings, 0 otherwise). -/
theorem metrics_log_count (cfg : Config) (m : MessagesVal) (sp : JSPrim)
    (up : UpstreamOutcome) :
    (handleChat cfg m sp up).logs.map MetricsRecord.messagesCount =
      List.replicate
        (if m.truthy then
          (if (validateMessages m).isNone && up.isBadSuccess then 2 else 1)
         else 0)
        (metricsCount m) := by
  by_cases ht : m.truthy = false
  · rw [handleChat_falsy cfg m sp up ht, ht]
    rfl
  · have ht' : m.truthy = true := by simpa using ht
    rw [ht']
    cases hv : validateMessages m with
    | some e =>
      rw [handleChat_invalid cfg m sp up e ht' hv]
      simp [catchResult_logs]
    | none =>
      cases up with
      | success t u mo =>
        rw [handleChat_valid_success cfg m sp t u mo hv]
        rfl
      | successBad emsg =>
        rw [handleChat_valid_successBad cfg m sp emsg hv]
        simp [catchResult_logs, UpstreamOutcome.isBadSuccess]
      | httpError st bj =>
        rw [handleChat_valid_httpError cfg m sp st bj hv]
        simp [catchResult_logs, UpstreamOutcome.isBadSuccess]
      | throwErr emsg =>
        rw [handleChat_valid_throwErr cfg m sp emsg hv]
        simp [catchResult_logs, UpstreamOutcome.isBadSuccess]

/-- C2 (counterexample): a request rejected by the missing-`messages` guard
emits no metrics record at all, and a request whose 2xx upstream body makes
the success path throw emits two records — both contradict "exactly one
record per request". -/
theorem metrics_log_cex :
    (handleChat cfg0 (.prim .jNull) .jUndefined (.throwErr [])).logs = [] ∧
    (handleChat cfg0 (.arr [goodMsg]) .jUndefined (.successBad [])).logs.length = 2 :=
  ⟨by decide, by decide⟩

/-- C6 (amended): when the upstream answers 429 and the composed error
message does not happen to contain the `API Error: 401` pattern (matched
first by the catch block), the endpoint answers 429 with the retry-later
string. -/
theorem upstream_429_maps_429 (cfg : Config) (m : MessagesVal) (sp : JSPrim)
    (bodyJson : List Char) (hv : validateMessages m = none)
    (h401 : containsSub pat401 (apiErrorMsg 429 bodyJson) = false) :
    (handleChat cfg m sp (.httpError 429 bodyJson)).status = 429 ∧
    (handleChat cfg m sp (.httpError 429 bodyJson)).error =
      some errUpstreamRate := by
  rw [handleChat_valid_httpError cfg m sp 429 bodyJson hv,
    catchResult_429 _ _ _ _ h401 (apiErrorMsg_429_contains bodyJson)]
  exact ⟨rfl, rfl⟩

/-- C6 (counterexample): an upstream 429 whose stringified error body
contains `API Error: 401` is classified by the first substring check and
the endpoint answers 500, not 429 — the claim's "for every such upstream
response" fails. -/
theorem upstream_429_as_500_cex :
    (handleChat cfg0 (.arr [goodMsg]) .jUndefined
      (.httpError 429 "API Error: 401".data)).status = 500 ∧
    (handleChat cfg0 (.arr [goodMsg]) .jUndefined
      (.httpError 429 "API Error: 401".data)).status ≠ 429 :=
  ⟨by decide, by decide⟩

/-- C6 (witness): the amended theorem instantiated at a one-message
conversation and an innocuous upstream error body. -/
theorem upstream_429_maps_429_witness :
    (handleChat cfg0 (.arr [goodMsg]) .jUndefined
      (.httpError 429 "overloaded".data)).status = 429 ∧
    (handleChat cfg0 (.arr [goodMsg]) .jUndefined
      (.httpError 429 "overloaded".data)).error = some errUpstreamRate :=
  upstream_429_maps_429 cfg0 (.arr [goodMsg]) .jUndefined "overloaded".data
    (by decide) (by decide)

/-- C7 (amended): the issued upstream request carries a `system` field iff
the supplied `systemPrompt` is truthy (a supplied empty string, `null`,
`false` or `0` all leave the field absent); when present it equals the
sanitized systemPrompt. -/
theorem system_iff_truthy (cfg : Config) (m : MessagesVal) (sp : JSPrim)
    (up : UpstreamOutcome) (r : UpstreamRequest)
    (h : (handleChat cfg m sp up).upReq = some r) :
    r.system.isSome = sp.truthy ∧
    r.system = (if sp.truthy then some (sanitizeInput sp) else none) := by
  have he := handleChat_upReq cfg m sp up r h
  subst he
  refine ⟨?_, rfl⟩
  unfold mkRequestBody
  by_cases hs : sp.truthy = true
  · simp [hs]
  · simp [Bool.not_eq_true] at hs
    simp [hs]

/-- C7 (counterexample): a supplied-but-empty `systemPrompt` (so supplied,
yet falsy) yields an upstream request with no `system` field, refuting
"carries a `system` field iff a systemPrompt was supplied". -/
theorem system_dropped_for_empty_cex :
    Option.map UpstreamRequest.system
      (handleChat cfg0 (.arr [goodMsg]) (.jStr []) (.throwErr [])).upReq =
      some none ∧ (JSPrim.jStr [] ≠ JSPrim.jUndefined) :=
  ⟨by decide, by decide⟩

/-- C7 (witness): the amended theorem instantiated at a truthy concrete
system prompt. -/
theorem system_iff_truthy_witness :
    (mkRequestBody cfg0 (sanitizedOf (.arr [goodMsg]))
      (.jStr "Sii gentile".data)).system.isSome =
      (JSPrim.jStr "Sii gentile".data).truthy ∧
    (mkRequestBody cfg0 (sanitizedOf (.arr [goodMsg]))
      (.jStr "Sii gentile".data)).system =
      (if (JSPrim.jStr "Sii gentile".data).truthy then
        some (sanitizeInput (.jStr "Sii gentile".data)) else none) :=
  system_iff_truthy cfg0 (.arr [goodMsg]) (.jStr "Sii gentile".data)
    (.throwErr []) _ (by decide)

/-- C8: the `model` and `max_tokens` of any issued upstream request are the
process-wide configuration values, hence identical across any two requests
under the same configuration — no caller-supplied field influences them. -/
theorem model_tokens_config_only (cfg : Config) (m₁ m₂ : MessagesVal)
    (sp₁ sp₂ : JSPrim) (up₁ up₂ : UpstreamOutcome) (r₁ r₂ : UpstreamRequest)
    (h₁ : (handleChat cfg m₁ sp₁ up₁).upReq = some r₁)
    (h₂ : (handleChat cfg m₂ sp₂ up₂).upReq = some r₂) :
    r₁.model = cfg.MODEL ∧ r₁.max_tokens = cfg.MAX_TOKENS ∧
    r₁.model = r₂.model ∧ r₁.max_tokens = r₂.max_tokens := by
  have e₁ := handleChat_upReq cfg m₁ sp₁ up₁ r₁ h₁
  have e₂ := handleChat_upReq cfg m₂ sp₂ up₂ r₂ h₂
  subst e₁
  subst e₂
  exact ⟨rfl, rfl, rfl, rfl⟩

/-- C8 (witness): two concrete requests with different conversations,
system prompts and upstream outcomes still carry the configuration's model
and token ceiling. -/
theorem model_tokens_config_only_witness :
    (mkRequestBody cfg0 (sanitizedOf (.arr [goodMsg])) .jUndefined).model =
      cfg0.MODEL ∧
    (mkRequestBody cfg0 (sanitizedOf (.arr [goodMsg])) .jUndefined).max_tokens =
      cfg0.MAX_TOKENS ∧
    (mkRequestBody cfg0 (sanitizedOf (.arr [goodMsg])) .jUndefined).model =
      (mkRequestBody cfg0 (sanitizedOf (.arr [goodMsg, goodMsg]))
        (.jStr "x".data)).model ∧
    (mkRequestBody cfg0 (sanitizedOf (.arr [goodMsg])) .jUndefined).max_tokens =
      (mkRequestBody cfg0 (sanitizedOf (.arr [goodMsg, goodMsg]))
        (.jStr "x".data)).max_tokens :=
  model_tokens_config_only cfg0 (.arr [goodMsg]) (.arr [goodMsg, goodMsg])
    .jUndefined (.jStr "x".data) (.throwErr [])
    (.success "a".data "b".data "c".data) _ _ (by decide) (by decide)

/-- C10: any falsy `messages` value (absent, `null`, `0`, `""`, `false`)
takes the missing-parameter guard: HTTP 400 with the missing-parameter
string, no validator error, no upstream request and no metrics record. -/
theorem falsy_messages_400 (cfg : Config) (m : MessagesVal) (sp : JSPrim)
    (up : UpstreamOutcome) (h : m.truthy = false) :
    handleChat cfg m sp up =
      { status := 400, error := some errMissingMessages, details := none,
        message := none, usage := none, modelUsed := none, upReq := none,
        logs := [] } :=
  handleChat_falsy cfg m sp up h

/-- C10 (witness): the guard theorem instantiated at an empty-string
`messages` value, which is thus reported as missing, not as
`InvalidFormat`. -/
theorem falsy_messages_400_witness :
    handleChat cfg0 (.prim (.jStr [])) .jUndefined (.throwErr []) =
      { status := 400, error := some errMissingMessages, details := none,
        message := none, usage := none, modelUsed := none, upReq := none,
        logs := [] } :=
  falsy_messages_400 cfg0 (.prim (.jStr [])) .jUndefined (.throwErr [])
    (by decide)

end Server
